import Mathlib

/-!
Shallow embedding of the bank-reconciliation core: the receipt matching
engine (`app/services/match_receipts.py`), the bank-record normalizer
(column detection and per-value parsers in the same module), the payment
batch validator (`app/services/payment_orchestrator.py`), and the
posting route (`app/routes/xero_data.py`).

Modelling conventions: monetary values and parsed numbers are rationals;
calendar dates are integer day numbers; Python exceptions are an `Except`
error monad; the fallible external parsing primitives (`dateutil.parser.parse`,
`float`) and the hash primitive (`hashlib.sha256`) are explicit function
parameters, so that wrappers around them can be analysed for every
possible primitive behaviour.
-/

namespace BankRecon

/-- Errors a Python-level operation can raise.  `type_error` models the
`TypeError` raised by pandas when `None` meets arithmetic. -/
inductive PyErr where
  | type_error
  | value_error
  | raised
deriving DecidableEq, Repr

/-- Python `str.lower`, character by character. -/
def to_lower_str (s : String) : String :=
  String.mk (s.toList.map Char.toLower)

/-- Python `str.strip`: drop whitespace from both ends. -/
def trim_str (s : String) : String :=
  String.mk (((s.toList.dropWhile Char.isWhitespace).reverse.dropWhile Char.isWhitespace).reverse)

/-- Python slicing `s[:n]` by characters. -/
def take_str (n : ℕ) (s : String) : String :=
  String.mk (s.toList.take n)

/-- Left-to-right non-overlapping replacement on character lists, the
core of Python `str.replace` (for a non-empty pattern).  Fuel-based
structural recursion; every step consumes at least one character, so
fuel equal to the list length is enough. -/
def replace_chars_fuel (pat rep : List Char) : ℕ → List Char → List Char
  | 0, l => l
  | _, [] => []
  | fuel + 1, c :: cs =>
    if pat.isPrefixOf (c :: cs) ∧ pat ≠ [] then
      rep ++ replace_chars_fuel pat rep fuel ((c :: cs).drop pat.length)
    else c :: replace_chars_fuel pat rep fuel cs

def replace_chars (pat rep l : List Char) : List Char :=
  replace_chars_fuel pat rep l.length l

/-- Python `s.replace(pat, rep)` (empty patterns do not occur here). -/
def replace_str (s pat rep : String) : String :=
  String.mk (replace_chars pat.toList rep.toList s.toList)

/-- Python `sep.join(parts)`. -/
def join_str (sep : String) (parts : List String) : String :=
  String.mk (List.flatten (List.intersperse sep.toList (parts.map (fun p => p.toList))))

/-- Round-half-up (ties away from zero) to an integer, the rounding mode
`decimal.ROUND_HALF_UP` uses. -/
def half_up (x : ℚ) : ℤ :=
  if 0 ≤ x then ⌊x + 1 / 2⌋ else -(⌊-x + 1 / 2⌋)

/-- Embedding of `_round2`: quantize to 2 decimal places, ROUND_HALF_UP. -/
def round2 (q : ℚ) : ℚ :=
  (half_up (q * 100) : ℚ) / 100

/-- Embedding of `_round_rate6`: quantize to 6 decimal places, ROUND_HALF_UP. -/
def round_rate6 (q : ℚ) : ℚ :=
  (half_up (q * 1000000) : ℚ) / 1000000

/-- A Python value as it reaches the per-value parsers: `None`, a float
`nan`, a (finite) number, a string, or a `datetime` (as a day number). -/
inductive Val where
  | pyNone
  | pyNaN
  | pyNum (q : ℚ)
  | pyStr (s : String)
  | pyDate (d : ℤ)
deriving DecidableEq, Repr

/-- The non-breaking space stripped by `_norm_amount`. -/
def nbsp : String := " "

/-- Embedding of `_norm_amount`.  The `float` primitive `fp` is explicit;
its failures are caught and become `none`.  A number round-trips through
`str` unchanged (no commas or currency codes in `str(float)`); `str` of a
`datetime` never parses as a float, so a date value yields `none`. -/
def norm_amount (fp : String → Except PyErr ℚ) : Val → Except PyErr (Option ℚ)
  | .pyNone => .ok none
  | .pyNaN => .ok none
  | .pyNum q => .ok (some q)
  | .pyDate _ => .ok none
  | .pyStr s =>
    let s1 := trim_str (replace_str (replace_str (replace_str s ("BHD") ("")) (",") ("")) nbsp (" "))
    if s1 = ("") then .ok none
    else
      match fp s1 with
      | .ok q => .ok (some q)
      | .error _ => .ok none

/-- The string-input path of `_parse_date_safe`: strip, reject empty and
the literals `nan`/`none`, then try the (day-first, fuzzy) date
primitive, mapping any failure to `none`. -/
def try_parse_date_str (dp : String → Except PyErr ℤ) (s : String) : Except PyErr (Option ℤ) :=
  let t := trim_str s
  if t = ("") ∨ to_lower_str t = ("nan") ∨ to_lower_str t = ("none") then .ok none
  else
    match dp t with
    | .ok d => .ok (some d)
    | .error _ => .ok none

/-- Rendering of a number by Python `str`, as fed to the date parser. -/
def num_str (q : ℚ) : String := toString q

/-- Embedding of `_parse_date_safe` with an explicit date primitive `dp`. -/
def parse_date_safe (dp : String → Except PyErr ℤ) : Val → Except PyErr (Option ℤ)
  | .pyNone => .ok none
  | .pyNaN => .ok none
  | .pyDate d => .ok (some d)
  | .pyNum q => try_parse_date_str dp (num_str q)
  | .pyStr s => try_parse_date_str dp s

/-- Embedding of `_within_days`: calendar-day difference at most `days`. -/
def within_days (d1 d2 : ℤ) (days : ℤ) : Bool :=
  decide (|d1 - d2| ≤ days)

/-- A pre-processed receipt as the matching loop sees it (the `recs`
list): the amount is the parsed absolute value, the date may be absent. -/
structure Rec where
  id : String
  amount : ℚ
  date : Option ℤ
  reference : Option String
  filename : Option String
deriving DecidableEq, Repr

/-- A raw receipt as stored: the amount may be unparseable. -/
structure RawReceipt where
  id : String
  amount : Option ℚ
  date : Option ℤ
  reference : Option String
  filename : Option String
deriving DecidableEq, Repr

/-- Receipt preparation in `match_receipts_to_bank`: receipts with no
amount are dropped; amounts are compared by absolute value. -/
def prep_receipts (receipts : List RawReceipt) : List Rec :=
  receipts.filterMap (fun r =>
    r.amount.map (fun a =>
      { id := r.id, amount := |a|, date := r.date
        reference := r.reference, filename := r.filename }))

/-- A normalized bank record: parsed amount and date, each nullable. -/
structure BankRow where
  amt : Option ℚ
  date : Option ℤ
deriving DecidableEq, Repr

/-- The per-row outcome recorded in `ReviewStatus_Receipt` and the
match columns. -/
inductive Outcome where
  | noAmount
  | noReceipt
  | matched (r : Rec)
  | multi (ids : List String)
  | dup (ids : List String)
deriving DecidableEq, Repr

/-- Candidate receipts for one bank row: within amount tolerance of the
absolute bank amount and, when the bank row has a date, within the date
window (receipts without a date always pass the window). -/
def receipt_candidates (recs : List Rec) (tol : ℚ) (amt : ℚ) (bdate : Option ℤ)
    (window : ℤ) : List Rec :=
  let c0 := recs.filter (fun r => decide (|(|amt|) - r.amount| ≤ tol))
  match bdate with
  | none => c0
  | some d => c0.filter (fun r =>
      match r.date with
      | none => true
      | some rd => within_days d rd window)

/-- One iteration of the matching loop body for one bank row, given the
used-receipt-id set so far; returns the outcome and the updated set. -/
def match_step (recs : List Rec) (window : ℤ) (tol : ℚ) (used : List String)
    (row : BankRow) : Outcome × List String :=
  match row.amt with
  | none => (.noAmount, used)
  | some a =>
    let cand := receipt_candidates recs tol a row.date window
    if cand.isEmpty then (.noReceipt, used)
    else
      let primary := cand.filter (fun r => !(used.contains r.id))
      match primary with
      | [r] => (.matched r, r.id :: used)
      | [] => (.dup (cand.map (fun r => r.id)), used)
      | _ => (.multi (primary.map (fun r => r.id)), used)

/-- The matching loop over the bank rows in order, threading the
used-receipt-id set; returns the outcomes and the final set. -/
def match_loop (recs : List Rec) (window : ℤ) (tol : ℚ) :
    List String → List BankRow → List Outcome × List String
  | used, [] => ([], used)
  | used, row :: rows =>
    let s := match_step recs window tol used row
    let rest := match_loop recs window tol s.2 rows
    (s.1 :: rest.1, rest.2)

def is_matched : Outcome → Bool
  | .matched _ => true
  | _ => false

def is_no_amount : Outcome → Bool
  | .noAmount => true
  | _ => false

def is_no_receipt : Outcome → Bool
  | .noReceipt => true
  | _ => false

def is_multi : Outcome → Bool
  | .multi _ => true
  | _ => false

def is_dup : Outcome → Bool
  | .dup _ => true
  | _ => false

/-- The run summary: `no_candidates` counts both the no-amount skips and
the empty-candidate rows, exactly as the loop increments it. -/
structure Summary where
  bank_rows : ℕ
  matched : ℕ
  no_candidates : ℕ
  multi_candidates : ℕ
  duplicate_receipt_use : ℕ
deriving DecidableEq, Repr

def summary_of (outs : List Outcome) : Summary :=
  { bank_rows := outs.length
    matched := outs.countP is_matched
    no_candidates := outs.countP (fun o => is_no_amount o || is_no_receipt o)
    multi_candidates := outs.countP is_multi
    duplicate_receipt_use := outs.countP is_dup }

/-- Embedding of `match_receipts_to_bank` (its matching half): prepare
the receipts, run the loop with an empty used-set, summarize. -/
def match_receipts_to_bank (rows : List BankRow) (receipts : List RawReceipt)
    (window : ℤ) (tol : ℚ) : List Outcome × Summary :=
  let recs := prep_receipts receipts
  let r := match_loop recs window tol [] rows
  (r.1, summary_of r.1)

/-- Leading-whitespace strip on a character list (`str.lstrip`). -/
def lstrip_chars (l : List Char) : List Char :=
  l.dropWhile (fun c => c.isWhitespace)

/-- The leading-marker loop of `_normalize_columns.clean`: while the name
starts with `*`, `#`, `·` or `•`, drop that character and lstrip.  Each
iteration consumes at least one character, so fuel equal to the list
length is enough. -/
def drop_markers_fuel : ℕ → List Char → List Char
  | 0, l => l
  | _, [] => []
  | fuel + 1, c :: cs =>
    if c = '*' ∨ c = '#' ∨ c = '·' ∨ c = '•' then drop_markers_fuel fuel (lstrip_chars cs)
    else c :: cs

def drop_markers (l : List Char) : List Char :=
  drop_markers_fuel l.length l

/-- Python `str.split()` with no argument: the whitespace-separated
words, empties dropped.  `acc` holds the current word reversed. -/
def split_ws_acc (acc : List Char) : List Char → List (List Char)
  | [] => if acc.isEmpty then [] else [acc.reverse]
  | c :: cs =>
    if c.isWhitespace then
      if acc.isEmpty then split_ws_acc [] cs
      else acc.reverse :: split_ws_acc [] cs
    else split_ws_acc (c :: acc) cs

def split_ws (l : List Char) : List (List Char) :=
  split_ws_acc [] l

/-- Whitespace-split-and-rejoin (`" ".join(n.split())`). -/
def collapse_spaces (s : String) : String :=
  join_str (" ") ((split_ws s.toList).map (fun w => String.mk w))

/-- Column-header cleanup in `_normalize_columns`. -/
def clean_name (s : String) : String :=
  collapse_spaces (String.mk (drop_markers (trim_str s).toList))

/-- Substring containment, the Python `in` on strings. -/
def str_contains (hay needle : String) : Bool :=
  let h := hay.toList
  let n := needle.toList
  (List.range (h.length + 1)).any (fun i => n.isPrefixOf (h.drop i))

def date_exact_names : List String :=
  ["Date", "Transaction Date", "Posting Date", "Value Date", "Statement Date"]

/-- Embedding of `_detect_date_column`: exact known name first, then the
first column whose lowercased name contains `date`. -/
def detect_date_column (cols : List String) : Option String :=
  match cols.find? (fun c => date_exact_names.contains c) with
  | some c => some c
  | none => cols.find? (fun c => str_contains (to_lower_str c) ("date"))

def amount_exact_names : List String := ["Amount", "Transaction Amount", "Amt"]

/-- Embedding of `_detect_amount_column`: preferred exact names in order,
then the first column containing `amount`. -/
def detect_amount_column (cols : List String) : Option String :=
  match amount_exact_names.find? (fun n => cols.contains n) with
  | some n => some n
  | none => cols.find? (fun c => str_contains (to_lower_str c) ("amount"))

def debit_exact_names : List String :=
  ["Debit", "Withdrawal", "Withdrawals", "Outflow", "Paid Out", "Money Out"]

def credit_exact_names : List String :=
  ["Credit", "Deposit", "Deposits", "Inflow", "Paid In", "Money In"]

def debit_sub_names : List String :=
  ["debit", "withdraw", "outflow", "paid out", "money out"]

def credit_sub_names : List String :=
  ["credit", "deposit", "inflow", "paid in", "money in"]

/-- Embedding of `_detect_debit_credit`.  The exact pass iterates all
columns without breaking, so the LAST exact match wins; the loose
substring pass takes the first match and only runs when the exact pass
found nothing for that side. -/
def detect_debit_credit (cols : List String) : Option String × Option String :=
  let d0 := (cols.filter (fun c => debit_exact_names.contains c)).getLast?
  let c0 := (cols.filter (fun c => credit_exact_names.contains c)).getLast?
  let d1 := match d0 with
    | some d => some d
    | none => cols.find? (fun c => debit_sub_names.any (fun k => str_contains (to_lower_str c) k))
  let c1 := match c0 with
    | some c => some c
    | none => cols.find? (fun c => credit_sub_names.any (fun k => str_contains (to_lower_str c) k))
  (d1, c1)

/-- A raw tabular bank export: column headers in order, and rows, each
row giving the cell value under a (cleaned) column name. -/
structure RawTable where
  cols : List String
  rows : List (String → Val)

inductive NormError where
  | missing_date_column
  | missing_amount_column
  | py (e : PyErr)
deriving DecidableEq, Repr

/-- `df[col].apply(_norm_amount)`: parse one column across all rows,
propagating a raised error (none occurs, see `parsers_total`). -/
def col_amounts (fp : String → Except PyErr ℚ) (c : String) :
    List (String → Val) → Except PyErr (List (Option ℚ))
  | [] => .ok []
  | row :: rest =>
    match norm_amount fp (row c) with
    | .error e => .error e
    | .ok v =>
      match col_amounts fp c rest with
      | .error e => .error e
      | .ok l => .ok (v :: l)

/-- The synthetic amount column `credit − debit`: a missing column acts
as the scalar `0.0`; a cell that parses to `None` meets the arithmetic
and raises `TypeError`, as the pandas subtraction does. -/
def synth_amounts (fp : String → Except PyErr ℚ) (dcol ccol : Option String) :
    List (String → Val) → Except PyErr (List ℚ)
  | [] => .ok []
  | row :: rest =>
    let cv : Except PyErr (Option ℚ) :=
      match ccol with
      | some cc => norm_amount fp (row cc)
      | none => .ok (some 0)
    let dv : Except PyErr (Option ℚ) :=
      match dcol with
      | some dc => norm_amount fp (row dc)
      | none => .ok (some 0)
    match cv, dv with
    | .error e, _ => .error e
    | _, .error e => .error e
    | .ok none, _ => .error .type_error
    | _, .ok none => .error .type_error
    | .ok (some c), .ok (some d) =>
      match synth_amounts fp dcol ccol rest with
      | .error e => .error e
      | .ok l => .ok ((c - d) :: l)

/-- The amount-column derivation of `match_receipts_to_bank`: a detected
amount column is parsed directly; otherwise a detected debit/credit pair
is synthesized (and the synthesized floats re-parse to themselves);
otherwise a last-resort `amount`-substring scan runs before failing. -/
def amount_values (fp : String → Except PyErr ℚ) (cols : List String)
    (rows : List (String → Val)) : Except NormError (List (Option ℚ)) :=
  match detect_amount_column cols with
  | some ac =>
    match col_amounts fp ac rows with
    | .ok vs => .ok vs
    | .error e => .error (.py e)
  | none =>
    let dc := detect_debit_credit cols
    match dc.1, dc.2 with
    | none, none =>
      match cols.find? (fun c => str_contains (to_lower_str c) ("amount")) with
      | some ac2 =>
        match col_amounts fp ac2 rows with
        | .ok vs => .ok vs
        | .error e => .error (.py e)
      | none => .error .missing_amount_column
    | _, _ =>
      match synth_amounts fp dc.1 dc.2 rows with
      | .ok vs => .ok (vs.map some)
      | .error e => .error (.py e)

/-- `df[datecol].apply(_parse_date_safe)` across all rows. -/
def col_dates (dp : String → Except PyErr ℤ) (c : String) :
    List (String → Val) → Except PyErr (List (Option ℤ))
  | [] => .ok []
  | row :: rest =>
    match parse_date_safe dp (row c) with
    | .error e => .error e
    | .ok v =>
      match col_dates dp c rest with
      | .error e => .error e
      | .ok l => .ok (v :: l)

/-- The normalizer front half of `match_receipts_to_bank`: clean the
headers, detect the date column (fatal if absent), derive the amounts
(fatal if no amount nor debit/credit column), parse the dates. -/
def normalize_bank (fp : String → Except PyErr ℚ) (dp : String → Except PyErr ℤ)
    (t : RawTable) : Except NormError (List BankRow) :=
  let cols := t.cols.map clean_name
  match detect_date_column cols with
  | none => .error .missing_date_column
  | some datec =>
    match amount_values fp cols t.rows with
    | .error e => .error e
    | .ok amts =>
      match col_dates dp datec t.rows with
      | .error e => .error (.py e)
      | .ok ds => .ok (List.zipWith (fun a d => { amt := a, date := d }) amts ds)

/-- One invoice allocation of a batch line (amount in invoice currency). -/
structure Alloc where
  invoice_id : String
  amount : ℚ
deriving DecidableEq, Repr

/-- The `non_invoice` payload of a batch line.  `Option String` fields
model keys that may be absent or `None`; Python truthiness additionally
treats the empty string as missing. -/
structure NonInvoice where
  is_spend : Bool
  account_code : Option String
  account_id : Option String
  contact_id : Option String
  description : Option String
deriving DecidableEq, Repr

/-- The `type` discriminator of a batch line. -/
inductive LineType where
  | invoices
  | non_invoice
  | other (s : String)
deriving DecidableEq, Repr

/-- A caller-declared batch line as `validate_and_build` reads it. -/
structure Line where
  bank_line_id : String
  date : String
  amount : ℚ
  reference : Option String
  type : LineType
  invoices : List Alloc
  non_invoice : Option NonInvoice
deriving Repr

/-- The batch `config` after its dict-get defaulting: tolerance 0.01 and
require-exact-totals true unless overridden. -/
structure Config where
  amount_tolerance : ℚ
  require_exact_totals : Bool
deriving DecidableEq, Repr

def default_config : Config :=
  { amount_tolerance := 1 / 100, require_exact_totals := true }

/-- A ledger-ready Payment payload. -/
structure Payment where
  invoice_id : String
  account_id : String
  date : String
  amount : ℚ
  reference : Option String
  currency_rate : Option ℚ
deriving DecidableEq, Repr

/-- The single line item of a built bank transaction. -/
structure TxnLineItem where
  description : String
  account_code : Option String
  account_id : Option String
  unit_amount : ℚ
deriving DecidableEq, Repr

/-- A ledger-ready BankTransaction payload; `spend` renders as the
`Type` field `SPEND`/`RECEIVE`. -/
structure BankTxn where
  spend : Bool
  contact_id : Option String
  date : String
  reference : Option String
  bank_account_id : String
  line_items : List TxnLineItem
deriving DecidableEq, Repr

inductive PayloadKind where
  | payment
  | banktxn
deriving DecidableEq, Repr

inductive Payload where
  | pay (p : Payment)
  | txn (t : BankTxn)
deriving DecidableEq, Repr

/-- One preview entry pairing a built payload with its originating line. -/
structure PreviewItem where
  bank_line_id : String
  kind : PayloadKind
  payload : Payload
deriving DecidableEq, Repr

/-- The three artifacts `validate_and_build` returns. -/
structure Built where
  payments : List Payment
  banktxns : List BankTxn
  preview : List PreviewItem
deriving DecidableEq, Repr

/-- Validation errors of `validate_and_build`, carrying the context the
corresponding `ValueError` message names. -/
inductive VError where
  | missing_allocations (bank_line_id : String)
  | sum_not_positive (bank_line_id : String)
  | amount_mismatch (bank_line_id : String) (foreign_total local_abs tol : ℚ)
  | missing_contact (bank_line_id : String)
  | missing_account_ref (bank_line_id : String)
  | unknown_line_type (bank_line_id : String) (t : String)
deriving DecidableEq, Repr

/-- Python `a or b` on strings: the first operand unless it is empty. -/
def or_str (a b : String) : String :=
  if a = ("") then b else a

/-- `(ln.get("reference") or "").strip()`. -/
def ref_norm (r : Option String) : String :=
  trim_str (r.getD (""))

/-- `reference[:255] if reference else None`. -/
def ref_payload (reference : String) : Option String :=
  if reference = ("") then none else some (take_str 255 reference)

/-- The rounded allocation sum `_round2(sum(_round2(i["amount"]) ...))`. -/
def foreign_total_of (invs : List Alloc) : ℚ :=
  round2 ((invs.map (fun i => round2 i.amount)).sum)

/-- The rounded absolute local bank amount
`_round2(abs(_round2(ln["amount"])))`. -/
def local_abs_of (amount : ℚ) : ℚ :=
  round2 |round2 amount|

def empty_non_invoice : NonInvoice :=
  { is_spend := false, account_code := none, account_id := none
    contact_id := none, description := none }

/-- Python truthiness of an optional string: missing or empty is falsy. -/
def opt_blank (s : Option String) : Bool :=
  (s.getD ("")) = ("")

/-- The loop body of `validate_and_build` for one batch line: either the
payloads and preview entries the line contributes, or the `ValueError`
that aborts the batch. -/
def build_line (cfg : Config) (bank_account_id : String) (ln : Line) :
    Except VError (List Payment × List BankTxn × List PreviewItem) :=
  let reference := ref_norm ln.reference
  let amt_local_signed := round2 ln.amount
  match ln.type with
  | .invoices =>
    if ln.invoices.isEmpty then .error (.missing_allocations ln.bank_line_id)
    else
      let ft := foreign_total_of ln.invoices
      if ft ≤ 0 then .error (.sum_not_positive ln.bank_line_id)
      else
        let la := round2 |amt_local_signed|
        if cfg.require_exact_totals ∧ |la - ft| > cfg.amount_tolerance then
          .error (.amount_mismatch ln.bank_line_id ft la cfg.amount_tolerance)
        else
          let rate : Option ℚ := if 0 < ft then some (round_rate6 (la / ft)) else none
          let ps := ln.invoices.map (fun i =>
            { invoice_id := i.invoice_id, account_id := bank_account_id
              date := ln.date, amount := round2 i.amount
              reference := ref_payload reference, currency_rate := rate })
          .ok (ps, [],
            ps.map (fun p =>
              { bank_line_id := ln.bank_line_id, kind := .payment, payload := .pay p }))
  | .non_invoice =>
    let ni := ln.non_invoice.getD empty_non_invoice
    if ni.is_spend ∧ opt_blank ni.contact_id then
      .error (.missing_contact ln.bank_line_id)
    else if opt_blank ni.account_code ∧ opt_blank ni.account_id then
      .error (.missing_account_ref ln.bank_line_id)
    else
      let line_amt := |amt_local_signed|
      let descr := or_str (ni.description.getD (""))
        (or_str reference (if ni.is_spend then ("Spend Money") else ("Receive Money")))
      let li : TxnLineItem :=
        if !(opt_blank ni.account_id) then
          { description := descr, account_code := none
            account_id := ni.account_id, unit_amount := line_amt }
        else
          { description := descr, account_code := ni.account_code
            account_id := none, unit_amount := line_amt }
      let txn : BankTxn :=
        { spend := ni.is_spend
          contact_id := if opt_blank ni.contact_id then none else ni.contact_id
          date := ln.date, reference := ref_payload reference
          bank_account_id := bank_account_id, line_items := [li] }
      .ok ([], [txn],
        [{ bank_line_id := ln.bank_line_id, kind := .banktxn, payload := .txn txn }])
  | .other s => .error (.unknown_line_type ln.bank_line_id s)

/-- Embedding of `validate_and_build`: process the batch lines in order,
the first failing line aborting the whole batch with no artifacts. -/
def validate_and_build (cfg : Config) (bank_account_id : String) :
    List Line → Except VError Built
  | [] => .ok { payments := [], banktxns := [], preview := [] }
  | ln :: rest =>
    match build_line cfg bank_account_id ln with
    | .error e => .error e
    | .ok out =>
      match validate_and_build cfg bank_account_id rest with
      | .error e => .error e
      | .ok b =>
        .ok { payments := out.1 ++ b.payments
              banktxns := out.2.1 ++ b.banktxns
              preview := out.2.2 ++ b.preview }

/-- The `non_invoice` payload of the route's request model
(`NonInvoicePayload`): `account_code` is a required field there. -/
structure XNonInvoice where
  is_spend : Bool
  account_code : String
  contact_id : Option String
  description : Option String
deriving DecidableEq, Repr

/-- The route's `type` field is `Literal["invoices", "non_invoice"]`. -/
inductive XLineType where
  | invoices
  | non_invoice
deriving DecidableEq, Repr

/-- A line of the route's `PaymentsBatchRequest`. -/
structure XLine where
  bank_line_id : String
  date : String
  amount : ℚ
  reference : Option String
  type : XLineType
  invoices : Option (List Alloc)
  non_invoice : Option XNonInvoice
deriving DecidableEq, Repr

/-- The route's `PaymentsBatchRequest` after config defaulting. -/
structure BatchRequest where
  bank_account_hint : Option String
  lines : List XLine
  config : Config
deriving DecidableEq, Repr

/-- An entry of the external account directory. -/
structure Account where
  account_id : String
  name : Option String
  code : Option String
  type : String
  status : String
deriving DecidableEq, Repr

/-- Failures of the posting route, each an `HTTPException` in the code. -/
inductive RouteError where
  | missing_allocations (bank_line_id : String)
  | amount_mismatch (bank_line_id : String) (total_apply amt tol : ℚ)
  | missing_non_invoice (bank_line_id : String)
  | no_account
  | ledger_rejected (status : ℕ) (detail : String)
deriving DecidableEq, Repr

/-- Embedding of `_pick_bank_account_id`: first active BANK account,
optionally preferring the first whose name+code contains the hint
(case-insensitively); an empty hint is falsy and skips the scan. -/
def pick_bank_account_id (accounts : List Account) (hint : Option String) :
    Except RouteError (String × Account) :=
  let accts := accounts.filter (fun a => a.type == ("BANK") && a.status == ("ACTIVE"))
  match accts with
  | [] => .error .no_account
  | a0 :: _ =>
    if opt_blank hint then .ok (a0.account_id, a0)
    else
      let h := to_lower_str (hint.getD (""))
      match accts.find? (fun a =>
        str_contains (to_lower_str ((a.name.getD ("")) ++ (" ") ++ (a.code.getD ("")))) h) with
      | some a => .ok (a.account_id, a)
      | none => .ok (a0.account_id, a0)

/-- The loop body of the route-local `_validate_and_build` for one line.
Unlike the orchestrator service it compares the allocation sum against
the SIGNED bank amount, attaches no currency rate, and performs no
contact or positive-sum check. -/
def xd_build_line (cfg : Config) (acct_id : String) (ln : XLine) :
    Except RouteError (List Payment × List BankTxn × List PreviewItem) :=
  let reference := ref_norm ln.reference
  let amt := round2 ln.amount
  match ln.type with
  | .invoices =>
    match ln.invoices with
    | none => .error (.missing_allocations ln.bank_line_id)
    | some invs =>
      if invs.isEmpty then .error (.missing_allocations ln.bank_line_id)
      else
        let total_apply := foreign_total_of invs
        if cfg.require_exact_totals ∧ |total_apply - amt| > cfg.amount_tolerance then
          .error (.amount_mismatch ln.bank_line_id total_apply amt cfg.amount_tolerance)
        else
          let ps := invs.map (fun i =>
            { invoice_id := i.invoice_id, account_id := acct_id, date := ln.date
              amount := round2 i.amount, reference := ref_payload reference
              currency_rate := none })
          .ok (ps, [],
            ps.map (fun p =>
              { bank_line_id := ln.bank_line_id, kind := .payment, payload := .pay p }))
  | .non_invoice =>
    match ln.non_invoice with
    | none => .error (.missing_non_invoice ln.bank_line_id)
    | some ni =>
      let line_amt := |amt|
      let descr := or_str (ni.description.getD (""))
        (or_str reference (if ni.is_spend then ("Spend Money") else ("Receive Money")))
      let txn : BankTxn :=
        { spend := ni.is_spend
          contact_id := if opt_blank ni.contact_id then none else ni.contact_id
          date := ln.date, reference := ref_payload reference
          bank_account_id := acct_id
          line_items := [{ description := descr, account_code := some ni.account_code
                           account_id := none, unit_amount := line_amt }] }
      .ok ([], [txn],
        [{ bank_line_id := ln.bank_line_id, kind := .banktxn, payload := .txn txn }])

/-- Embedding of the route-local `_validate_and_build`. -/
def xd_validate_and_build (cfg : Config) (acct_id : String) :
    List XLine → Except RouteError Built
  | [] => .ok { payments := [], banktxns := [], preview := [] }
  | ln :: rest =>
    match xd_build_line cfg acct_id ln with
    | .error e => .error e
    | .ok out =>
      match xd_validate_and_build cfg acct_id rest with
      | .error e => .error e
      | .ok b =>
        .ok { payments := out.1 ++ b.payments
              banktxns := out.2.1 ++ b.banktxns
              preview := out.2.2 ++ b.preview }

/-- Embedding of `_idem_key`: hash of the `|`-joined parts.  The SHA-256
primitive is an explicit parameter `sha`. -/
def idem_key (sha : String → String) (parts : List String) : String :=
  sha (join_str ("|") parts)

/-- Canonical serialization of the full request, modelling
`json.dumps(req.model_dump(), sort_keys=True)`: a fixed injective-free
rendering that depends on the request alone. -/
def model_dump (req : BatchRequest) : String :=
  reprStr req

/-- A ledger HTTP response: status, body text, and the truthiness of the
parsed JSON body. -/
structure LedgerResp where
  status : ℕ
  text : String
  json_truthy : Bool
deriving DecidableEq, Repr

/-- Everything in a `payments_post` run that is NOT a function of the
batch request and the account directory: the ledger's two responses and
the wall-clock timestamp used in audit records. -/
structure PostContext where
  pay_resp : LedgerResp
  bt_resp : LedgerResp
  now : String
deriving DecidableEq, Repr

/-- One outbound ledger call with the idempotency key it carried. -/
structure LedgerCall where
  endpoint : String
  idem_key : String
deriving DecidableEq, Repr

/-- One appended audit record (`{ts, bank_line_id, type, request,
xero_response_keys}`). -/
structure AuditRecord where
  ts : String
  bank_line_id : String
  item_type : PayloadKind
  request : Payload
  payments_flag : Bool
  banktxns_flag : Bool
deriving DecidableEq, Repr

/-- The successful result of `payments_post`; `audits` is the batch of
records appended to the audit log, which only exists on success. -/
structure PostOutcome where
  bank_account_id : String
  posted_payments : ℕ
  posted_banktxns : ℕ
  audits : List AuditRecord
deriving DecidableEq, Repr

def is2xx (n : ℕ) : Bool :=
  n == 200 || n == 201

/-- The idempotency seed of `payments_post`: hash of the hint (or chosen
account name, or account id) joined with the serialized request. -/
def idem_seed (sha : String → String) (req : BatchRequest) (acct_id : String)
    (chosen : Account) : String :=
  idem_key sha [or_str (req.bank_account_hint.getD ("")) (or_str (chosen.name.getD ("")) acct_id),
    model_dump req]

/-- Embedding of the `payments_post` route: resolve the account,
validate and build, post payments then bank transactions (each skipped
when its list is empty, a non-2xx response aborting with the status and
body text), and only then build the audit records.  The second component
is the trace of ledger calls actually made. -/
def payments_post (sha : String → String) (accounts : List Account)
    (req : BatchRequest) (ctx : PostContext) :
    Except RouteError PostOutcome × List LedgerCall :=
  match pick_bank_account_id accounts req.bank_account_hint with
  | .error e => (.error e, [])
  | .ok ac =>
    match xd_validate_and_build req.config ac.1 req.lines with
    | .error e => (.error e, [])
    | .ok built =>
      let seed := idem_seed sha req ac.1 ac.2
      let pay_key := idem_key sha [seed, ("payments")]
      let bt_key := idem_key sha [seed, ("banktxns")]
      let pay_calls : List LedgerCall :=
        if built.payments.isEmpty then []
        else [{ endpoint := ("payments"), idem_key := pay_key }]
      if !built.payments.isEmpty && !(is2xx ctx.pay_resp.status) then
        (.error (.ledger_rejected ctx.pay_resp.status ctx.pay_resp.text), pay_calls)
      else
        let calls := pay_calls ++
          (if built.banktxns.isEmpty then []
           else [{ endpoint := ("banktxns"), idem_key := bt_key }])
        if !built.banktxns.isEmpty && !(is2xx ctx.bt_resp.status) then
          (.error (.ledger_rejected ctx.bt_resp.status ctx.bt_resp.text), calls)
        else
          let pflag := !built.payments.isEmpty && ctx.pay_resp.json_truthy
          let bflag := !built.banktxns.isEmpty && ctx.bt_resp.json_truthy
          (.ok { bank_account_id := ac.1
                 posted_payments := built.payments.length
                 posted_banktxns := built.banktxns.length
                 audits := built.preview.map (fun it =>
                   { ts := ctx.now, bank_line_id := it.bank_line_id
                     item_type := it.kind, request := it.payload
                     payments_flag := pflag, banktxns_flag := bflag }) }, calls)

/-- Scenario C: an `invoices` line with allocations summing to 99.00
against a bank amount of −100.00. -/
def c2_line : Line :=
  { bank_line_id := ("L1"), date := ("2025-07-11"), amount := -100, reference := none
    type := .invoices, invoices := [{ invoice_id := ("I1"), amount := 99 }], non_invoice := none }

/-- An `invoices` line whose single allocation is negative, so the
rounded allocation sum is not positive. -/
def c2_bad_line : Line :=
  { bank_line_id := ("L1"), date := ("2025-07-11"), amount := -100, reference := none
    type := .invoices, invoices := [{ invoice_id := ("I1"), amount := -1 }], non_invoice := none }

/-- A valid `invoices` line: one allocation of 100.00 against a bank
amount of −100.00. -/
def c3_line : Line :=
  { bank_line_id := ("L3"), date := ("2025-07-11"), amount := -100, reference := none
    type := .invoices, invoices := [{ invoice_id := ("I1"), amount := 100 }], non_invoice := none }

def c3_payment : Payment :=
  { invoice_id := ("I1"), account_id := ("ACC"), date := ("2025-07-11"), amount := 100
    reference := none, currency_rate := some 1 }

def c3_out : List Payment × List BankTxn × List PreviewItem :=
  ([c3_payment], [], [{ bank_line_id := ("L3"), kind := .payment, payload := .pay c3_payment }])

/-- Scenario D: a spend-money `non_invoice` line without a contact. -/
def c5_line : Line :=
  { bank_line_id := ("L2"), date := ("2025-07-11"), amount := -50, reference := none
    type := .non_invoice, invoices := []
    non_invoice := some { is_spend := true, account_code := some ("4205"), account_id := none
                          contact_id := none, description := none } }

/-- Scenario E row: Withdrawal 100, Deposit 30. -/
def c8_row1 : String → Val :=
  fun c => if c = ("Withdrawal") then .pyNum 100 else if c = ("Deposit") then .pyNum 30 else .pyNone

/-- Scenario E row: Withdrawal 0, Deposit 250. -/
def c8_row2 : String → Val :=
  fun c => if c = ("Withdrawal") then .pyNum 0 else if c = ("Deposit") then .pyNum 250 else .pyNone

/-- A float primitive that rejects everything; Scenario E cells are
numeric, so it is never consulted. -/
def c8_fp : String → Except PyErr ℚ := fun _ => .error .raised

/-- The parsed debit cell of a Scenario E row. -/
def c8_dval (row : String → Val) : ℚ :=
  match row ("Withdrawal") with
  | .pyNum q => q
  | _ => 0

/-- The parsed credit cell of a Scenario E row. -/
def c8_cval (row : String → Val) : ℚ :=
  match row ("Deposit") with
  | .pyNum q => q
  | _ => 0

/-- A directory with a single active bank account. -/
def c67_account : Account :=
  { account_id := ("A1"), name := some ("Main"), code := some ("090")
    type := ("BANK"), status := ("ACTIVE") }

/-- A route batch line: one allocation of 100.00 against bank amount
100.00 (the route compares against the signed amount). -/
def c67_line : XLine :=
  { bank_line_id := ("L1"), date := ("2025-07-11"), amount := 100, reference := none
    type := .invoices, invoices := some [{ invoice_id := ("I1"), amount := 100 }]
    non_invoice := none }

def c67_req : BatchRequest :=
  { bank_account_hint := none, lines := [c67_line], config := default_config }

def c67_payment : Payment :=
  { invoice_id := ("I1"), account_id := ("A1"), date := ("2025-07-11"), amount := 100
    reference := none, currency_rate := none }

def c67_built : Built :=
  { payments := [c67_payment], banktxns := []
    preview := [{ bank_line_id := ("L1"), kind := .payment, payload := .pay c67_payment }] }

/-- A context whose payments post is rejected with status 500. -/
def c6_ctx : PostContext :=
  { pay_resp := { status := 500, text := ("boom"), json_truthy := true }
    bt_resp := { status := 200, text := (""), json_truthy := true }
    now := ("t0") }

def c7_ctx1 : PostContext :=
  { pay_resp := { status := 200, text := ("ok"), json_truthy := true }
    bt_resp := { status := 200, text := ("ok"), json_truthy := true }
    now := ("t1") }

def c7_ctx2 : PostContext :=
  { pay_resp := { status := 201, text := ("created"), json_truthy := false }
    bt_resp := { status := 503, text := ("down"), json_truthy := false }
    now := ("t2") }

/-- A constant stand-in for the hash primitive. -/
def sha_const : String → String := fun _ => ("K")

/-- The receipt id of a `Matched` outcome, if any. -/
def matched_id : Outcome → Option String
  | .matched r => some r.id
  | _ => none

theorem mem_receipt_candidates {recs : List Rec} {tol : ℚ} {a : ℚ} {bdate : Option ℤ}
    {window : ℤ} {r : Rec} (h : r ∈ receipt_candidates recs tol a bdate window) :
    |(|a|) - r.amount| ≤ tol ∧
    (∀ d rd, bdate = some d → r.date = some rd → |d - rd| ≤ window) ∧ r ∈ recs := by
  unfold receipt_candidates at h
  cases bdate with
  | none =>
    simp only [List.mem_filter, decide_eq_true_eq] at h
    refine ⟨h.2, ?_, h.1⟩
    intro d rd hd
    cases hd
  | some d =>
    simp only [List.mem_filter, decide_eq_true_eq] at h
    refine ⟨h.1.2, ?_, h.1.1⟩
    intro d2 rd hd hrd
    cases hd
    have h2 := h.2
    rw [hrd] at h2
    simpa [within_days] using h2

theorem match_step_matched {recs : List Rec} {window : ℤ} {tol : ℚ} {used : List String}
    {row : BankRow} {r : Rec}
    (h : (match_step recs window tol used row).1 = .matched r) :
    (∃ a, row.amt = some a ∧ r ∈ receipt_candidates recs tol a row.date window) ∧
    ¬ r.id ∈ used ∧ (match_step recs window tol used row).2 = r.id :: used := by
  cases hrow : row.amt with
  | none =>
    rw [show match_step recs window tol used row = (Outcome.noAmount, used) from by
      simp [match_step, hrow]] at h
    cases h
  | some a =>
    by_cases hc : (receipt_candidates recs tol a row.date window).isEmpty
    · rw [show match_step recs window tol used row = (Outcome.noReceipt, used) from by
        simp [match_step, hrow, hc]] at h
      cases h
    · cases hp : (receipt_candidates recs tol a row.date window).filter
          (fun r => !(decide (r.id ∈ used))) with
      | nil =>
        rw [show match_step recs window tol used row =
            (Outcome.dup ((receipt_candidates recs tol a row.date window).map (fun r => r.id)),
              used) from by simp [match_step, hrow, hc, hp]] at h
        cases h
      | cons r0 rest =>
        cases rest with
        | nil =>
          have hstep : match_step recs window tol used row = (Outcome.matched r0, r0.id :: used) := by
            simp [match_step, hrow, hc, hp]
          have hr0r : r0 = r := by
            rw [hstep] at h
            simpa using h
          subst hr0r
          have hr0 : r0 ∈ (receipt_candidates recs tol a row.date window).filter
              (fun r => !(decide (r.id ∈ used))) := by
            rw [hp]; exact List.mem_singleton.mpr rfl
          have hm := List.mem_filter.mp hr0
          rw [hstep]
          refine ⟨⟨a, rfl, hm.1⟩, ?_, rfl⟩
          simpa using hm.2
        | cons r1 rest1 =>
          rw [show match_step recs window tol used row =
              (Outcome.multi ((r0 :: r1 :: rest1).map (fun r => r.id)), used) from by
            simp [match_step, hrow, hc, hp]] at h
          cases h

theorem match_step_used_sub (recs : List Rec) (window : ℤ) (tol : ℚ) (used : List String)
    (row : BankRow) : used ⊆ (match_step recs window tol used row).2 := by
  cases hrow : row.amt with
  | none =>
    rw [show match_step recs window tol used row = (Outcome.noAmount, used) from by
      simp [match_step, hrow]]
    exact fun x hx => hx
  | some a =>
    by_cases hc : (receipt_candidates recs tol a row.date window).isEmpty
    · rw [show match_step recs window tol used row = (Outcome.noReceipt, used) from by
        simp [match_step, hrow, hc]]
      exact fun x hx => hx
    · cases hp : (receipt_candidates recs tol a row.date window).filter
          (fun r => !(decide (r.id ∈ used))) with
      | nil =>
        rw [show match_step recs window tol used row =
            (Outcome.dup ((receipt_candidates recs tol a row.date window).map (fun r => r.id)),
              used) from by simp [match_step, hrow, hc, hp]]
        exact fun x hx => hx
      | cons r0 rest =>
        cases rest with
        | nil =>
          rw [show match_step recs window tol used row = (Outcome.matched r0, r0.id :: used) from by
            simp [match_step, hrow, hc, hp]]
          exact fun x hx => List.mem_cons_of_mem _ hx
        | cons r1 rest1 =>
          rw [show match_step recs window tol used row =
              (Outcome.multi ((r0 :: r1 :: rest1).map (fun r => r.id)), used) from by
            simp [match_step, hrow, hc, hp]]
          exact fun x hx => hx

theorem match_loop_length (recs : List Rec) (window : ℤ) (tol : ℚ) :
    ∀ (used : List String) (rows : List BankRow),
    ((match_loop recs window tol used rows).1).length = rows.length := by
  intro used rows
  induction rows generalizing used with
  | nil => rfl
  | cons row rows ih => simp only [match_loop, List.length_cons, ih]

theorem match_loop_used_sub (recs : List Rec) (window : ℤ) (tol : ℚ) :
    ∀ (used : List String) (rows : List BankRow),
    used ⊆ (match_loop recs window tol used rows).2 := by
  intro used rows
  induction rows generalizing used with
  | nil => exact fun x hx => hx
  | cons row rows ih =>
    simp only [match_loop]
    exact (match_step_used_sub recs window tol used row).trans
      (ih (match_step recs window tol used row).2)

theorem match_loop_matched_not_used (recs : List Rec) (window : ℤ) (tol : ℚ) :
    ∀ (used : List String) (rows : List BankRow) (i : ℕ) (r : Rec),
    ((match_loop recs window tol used rows).1)[i]? = some (.matched r) → ¬ r.id ∈ used := by
  intro used rows
  induction rows generalizing used with
  | nil => intro i r h; simp [match_loop] at h
  | cons row rows ih =>
    intro i r h
    simp only [match_loop] at h
    cases i with
    | zero =>
      simp only [List.getElem?_cons_zero, Option.some_inj] at h
      exact (match_step_matched h).2.1
    | succ n =>
      simp only [List.getElem?_cons_succ] at h
      intro hmem
      exact ih (match_step recs window tol used row).2 n r h
        (match_step_used_sub recs window tol used row hmem)

theorem match_loop_matched_ids_nodup (recs : List Rec) (window : ℤ) (tol : ℚ) :
    ∀ (used : List String) (rows : List BankRow),
    (((match_loop recs window tol used rows).1).filterMap matched_id).Nodup := by
  intro used rows
  induction rows generalizing used with
  | nil => simp [match_loop]
  | cons row rows ih =>
    simp only [match_loop, List.filterMap_cons]
    cases hs : (match_step recs window tol used row).1 with
    | matched r =>
      simp only [matched_id, List.nodup_cons]
      refine ⟨?_, ih _⟩
      intro hmem
      obtain ⟨o, ho, hid⟩ := List.mem_filterMap.mp hmem
      obtain ⟨i, hi⟩ := List.getElem?_of_mem ho
      cases o with
      | matched r2 =>
        simp only [matched_id, Option.some_inj] at hid
        have hnot := match_loop_matched_not_used recs window tol
          (match_step recs window tol used row).2 rows i r2 hi
        rw [(match_step_matched hs).2.2] at hnot
        exact hnot (by rw [hid]; exact List.mem_cons_self _ _)
      | noAmount => cases hid
      | noReceipt => cases hid
      | multi ids => cases hid
      | dup ids => cases hid
    | noAmount => simpa [matched_id] using ih _
    | noReceipt => simpa [matched_id] using ih _
    | multi ids => simpa [matched_id] using ih _
    | dup ids => simpa [matched_id] using ih _

/-- Claim C1: within one matching run each receipt id appears in at most
one `Matched` outcome: the list of matched receipt ids has no duplicate;
moreover the used-set only grows along the loop, and an id already in
the used-set is never the id of a later `Matched` outcome. -/
theorem matching_no_receipt_reuse (rows : List BankRow) (receipts : List RawReceipt)
    (window : ℤ) (tol : ℚ) :
    (((match_receipts_to_bank rows receipts window tol).1).filterMap matched_id).Nodup ∧
    (∀ (used : List String) (rows2 : List BankRow),
      used ⊆ (match_loop (prep_receipts receipts) window tol used rows2).2) ∧
    (∀ (used : List String) (rows2 : List BankRow) (i : ℕ) (r : Rec),
      ((match_loop (prep_receipts receipts) window tol used rows2).1)[i]? =
        some (.matched r) → ¬ r.id ∈ used) := by
  refine ⟨?_, ?_, ?_⟩
  · exact match_loop_matched_ids_nodup (prep_receipts receipts) window tol [] rows
  · exact match_loop_used_sub (prep_receipts receipts) window tol
  · exact match_loop_matched_not_used (prep_receipts receipts) window tol

theorem matching_no_receipt_reuse_check :
    (((match_receipts_to_bank
        [{ amt := some (-250), date := some 20 }, { amt := some (-250), date := some 21 }]
        [{ id := ("R1"), amount := some 250, date := some 19, reference := none, filename := none }]
        3 (1 / 100)).1).filterMap matched_id).Nodup :=
  (matching_no_receipt_reuse
    [{ amt := some (-250), date := some 20 }, { amt := some (-250), date := some 21 }]
    [{ id := ("R1"), amount := some 250, date := some 19, reference := none, filename := none }]
    3 (1 / 100)).1

theorem match_loop_matched_cand (recs : List Rec) (window : ℤ) (tol : ℚ) :
    ∀ (used : List String) (rows : List BankRow) (i : ℕ) (b : BankRow) (r : Rec),
    rows[i]? = some b →
    ((match_loop recs window tol used rows).1)[i]? = some (.matched r) →
    (∃ a, b.amt = some a ∧ |(|a|) - r.amount| ≤ tol) ∧
    (∀ d rd, b.date = some d → r.date = some rd → |d - rd| ≤ window) := by
  intro used rows
  induction rows generalizing used with
  | nil => intro i b r hb ho; simp at hb
  | cons row rows ih =>
    intro i b r hb ho
    simp only [match_loop] at ho
    cases i with
    | zero =>
      simp only [List.getElem?_cons_zero, Option.some_inj] at hb ho
      subst hb
      obtain ⟨⟨a, ha, hcand⟩, _, _⟩ := match_step_matched ho
      have hm := mem_receipt_candidates hcand
      exact ⟨⟨a, ha, hm.1⟩, hm.2.1⟩
    | succ n =>
      simp only [List.getElem?_cons_succ] at hb ho
      exact ih _ n b r hb ho

/-- Claim C4: a `Matched` outcome implies the bank row had a parsed
amount within `amount_tol` of the receipt's (absolute) amount, and when
both the bank row and the receipt carry a date, the day difference is at
most `date_window_days`. -/
theorem matched_within_tolerance (rows : List BankRow) (receipts : List RawReceipt)
    (window : ℤ) (tol : ℚ) (i : ℕ) (b : BankRow) (r : Rec)
    (hb : rows[i]? = some b)
    (ho : ((match_receipts_to_bank rows receipts window tol).1)[i]? = some (.matched r)) :
    (∃ a, b.amt = some a ∧ |(|a|) - r.amount| ≤ tol) ∧
    (∀ d rd, b.date = some d → r.date = some rd → |d - rd| ≤ window) := by
  simp only [match_receipts_to_bank] at ho
  exact match_loop_matched_cand (prep_receipts receipts) window tol [] rows i b r hb ho

theorem matched_within_tolerance_check :
    (∃ a, some (-250 : ℚ) = some a ∧ |(|a|) - (250 : ℚ)| ≤ 1 / 100) ∧
    (∀ d rd, some (20 : ℤ) = some d → some (19 : ℤ) = some rd → |d - rd| ≤ (3 : ℤ)) :=
  matched_within_tolerance
    [{ amt := some (-250), date := some 20 }]
    [{ id := ("R1"), amount := some 250, date := some 19, reference := none, filename := none }]
    3 (1 / 100) 0
    { amt := some (-250), date := some 20 }
    { id := ("R1"), amount := 250, date := some 19, reference := none, filename := none }
    rfl
    (by norm_num [match_receipts_to_bank, match_loop, match_step, receipt_candidates,
      prep_receipts, within_days, List.filter])

theorem outs_counts_sum (outs : List Outcome) :
    outs.countP is_matched + outs.countP (fun o => is_no_amount o || is_no_receipt o) +
      outs.countP is_multi + outs.countP is_dup = outs.length := by
  induction outs with
  | nil => rfl
  | cons o rest ih =>
    cases o <;>
      simp [List.countP_cons, is_matched, is_no_amount, is_no_receipt, is_multi, is_dup]
        at ih ⊢ <;>
      omega

theorem countP_no_split (outs : List Outcome) :
    outs.countP (fun o => is_no_amount o || is_no_receipt o) =
      outs.countP is_no_receipt + outs.countP is_no_amount := by
  induction outs with
  | nil => rfl
  | cons o rest ih =>
    cases o <;>
      simp [List.countP_cons, is_no_amount, is_no_receipt] at ih ⊢ <;>
      omega

/-- Claim C10: the four summary counters partition the bank rows
(`matched + no_candidates + multi_candidates + duplicate_receipt_use =
bank_rows`), every row receives exactly one outcome, and
`no_candidates` aggregates both the `NoReceiptFound` rows and the
unparseable-amount (`NoAmount`) rows rather than a separate counter. -/
theorem summary_counts_partition (rows : List BankRow) (receipts : List RawReceipt)
    (window : ℤ) (tol : ℚ) :
    (match_receipts_to_bank rows receipts window tol).2.matched +
      (match_receipts_to_bank rows receipts window tol).2.no_candidates +
      (match_receipts_to_bank rows receipts window tol).2.multi_candidates +
      (match_receipts_to_bank rows receipts window tol).2.duplicate_receipt_use = rows.length ∧
    ((match_receipts_to_bank rows receipts window tol).1).length = rows.length ∧
    (match_receipts_to_bank rows receipts window tol).2.bank_rows = rows.length ∧
    (match_receipts_to_bank rows receipts window tol).2.no_candidates =
      ((match_receipts_to_bank rows receipts window tol).1).countP is_no_receipt +
      ((match_receipts_to_bank rows receipts window tol).1).countP is_no_amount := by
  have hlen := match_loop_length (prep_receipts receipts) window tol [] rows
  simp only [match_receipts_to_bank, summary_of]
  refine ⟨?_, hlen, hlen, countP_no_split _⟩
  rw [outs_counts_sum]
  exact hlen

theorem try_parse_date_total (dp : String → Except PyErr ℤ) (s : String) :
    ∃ o, try_parse_date_str dp s = .ok o := by
  unfold try_parse_date_str
  by_cases h : trim_str s = ("") ∨ to_lower_str (trim_str s) = ("nan") ∨
      to_lower_str (trim_str s) = ("none")
  · exact ⟨none, by simp [h]⟩
  · cases hdp : dp (trim_str s) with
    | ok d => exact ⟨some d, by simp [h, hdp]⟩
    | error e => exact ⟨none, by simp [h, hdp]⟩

theorem norm_amount_total (fp : String → Except PyErr ℚ) (v : Val) :
    ∃ a, norm_amount fp v = .ok a := by
  cases v with
  | pyNone => exact ⟨none, rfl⟩
  | pyNaN => exact ⟨none, rfl⟩
  | pyNum q => exact ⟨some q, rfl⟩
  | pyDate d => exact ⟨none, rfl⟩
  | pyStr s =>
    unfold norm_amount
    by_cases h : trim_str (replace_str (replace_str (replace_str s ("BHD") ("")) (",") (""))
        nbsp (" ")) = ("")
    · exact ⟨none, by simp [h]⟩
    · cases hfp : fp (trim_str (replace_str (replace_str (replace_str s ("BHD") ("")) (",") (""))
          nbsp (" "))) with
      | ok q => exact ⟨some q, by simp [h, hfp]⟩
      | error e => exact ⟨none, by simp [h, hfp]⟩

/-- Claim C9: the per-value parsers are total.  For every possible
behaviour of the underlying date and float primitives (each may fail on
any input) and every input value, `_parse_date_safe` and `_norm_amount`
return a value (`ok`, possibly `none`) and never propagate an error. -/
theorem parsers_never_raise (dp : String → Except PyErr ℤ) (fp : String → Except PyErr ℚ)
    (v : Val) :
    (∃ o, parse_date_safe dp v = .ok o) ∧ (∃ a, norm_amount fp v = .ok a) := by
  refine ⟨?_, norm_amount_total fp v⟩
  cases v with
  | pyNone => exact ⟨none, rfl⟩
  | pyNaN => exact ⟨none, rfl⟩
  | pyDate d => exact ⟨some d, rfl⟩
  | pyNum q => exact try_parse_date_total dp (num_str q)
  | pyStr s => exact try_parse_date_total dp s

/-- Claim C2, amended with the positivity precondition the code imposes
first: for an `invoices` batch line with a non-empty allocation list
whose rounded allocation sum is positive, with exact totals required,
processing the line fails with the `AmountMismatch` error naming the
rounded allocation sum, the rounded absolute local bank amount and the
tolerance, if and only if those two totals differ by more than the
tolerance. -/
theorem amount_mismatch_iff (cfg : Config) (acct : String) (ln : Line)
    (htype : ln.type = .invoices)
    (hne : ln.invoices ≠ [])
    (hreq : cfg.require_exact_totals = true)
    (hpos : 0 < foreign_total_of ln.invoices) :
    build_line cfg acct ln =
      .error (.amount_mismatch ln.bank_line_id (foreign_total_of ln.invoices)
        (local_abs_of ln.amount) cfg.amount_tolerance) ↔
    |local_abs_of ln.amount - foreign_total_of ln.invoices| > cfg.amount_tolerance := by
  have hne' : ln.invoices.isEmpty = false := by
    cases hinv : ln.invoices with
    | nil => exact absurd hinv hne
    | cons a l => rfl
  have h1 : ¬ (foreign_total_of ln.invoices ≤ 0) := not_le.mpr hpos
  by_cases hgt : |local_abs_of ln.amount - foreign_total_of ln.invoices| > cfg.amount_tolerance
  · simp only [local_abs_of] at hgt
    simp [build_line, htype, hne', h1, hreq, hgt, local_abs_of]
  · simp only [local_abs_of] at hgt
    simp [build_line, htype, hne', h1, hreq, hgt, local_abs_of]

theorem amount_mismatch_iff_check :
    (build_line default_config ("ACC") c2_line =
      .error (.amount_mismatch c2_line.bank_line_id (foreign_total_of c2_line.invoices)
        (local_abs_of c2_line.amount) default_config.amount_tolerance)) ↔
    |local_abs_of c2_line.amount - foreign_total_of c2_line.invoices| >
      default_config.amount_tolerance :=
  amount_mismatch_iff default_config ("ACC") c2_line rfl (by simp [c2_line]) rfl
    (by norm_num [c2_line, foreign_total_of, round2, half_up])

/-- Claim C2 as frozen is false at `c2_bad_line`: the two rounded totals
differ by far more than the tolerance (|100 − (−1.00)| = 101), yet the
line does not fail with `AmountMismatch` — it fails with the earlier
sum-must-be-positive error. -/
theorem amount_mismatch_iff_cex :
    ¬ ((build_line default_config ("ACC") c2_bad_line =
        .error (.amount_mismatch c2_bad_line.bank_line_id (foreign_total_of c2_bad_line.invoices)
          (local_abs_of c2_bad_line.amount) default_config.amount_tolerance)) ↔
      |local_abs_of c2_bad_line.amount - foreign_total_of c2_bad_line.invoices| >
        default_config.amount_tolerance) := by
  have hbuild : build_line default_config ("ACC") c2_bad_line =
      .error (.sum_not_positive ("L1")) := by
    norm_num [build_line, c2_bad_line, foreign_total_of, round2, half_up]
  have hrhs : |local_abs_of c2_bad_line.amount - foreign_total_of c2_bad_line.invoices| >
      default_config.amount_tolerance := by
    norm_num [c2_bad_line, local_abs_of, foreign_total_of, round2, half_up, default_config]
  intro h
  have hl := h.mpr hrhs
  rw [hbuild] at hl
  exact absurd hl (by simp)

/-- Claim C3: a validated `invoices` line builds at least one Payment,
and every Payment built from it carries `CurrencyRate` equal to the
rounded (6 decimals, half-up) quotient of the rounded absolute local
amount by the rounded allocation total. -/
theorem fx_rate_attached (cfg : Config) (acct : String) (ln : Line)
    (out : List Payment × List BankTxn × List PreviewItem)
    (htype : ln.type = .invoices)
    (hok : build_line cfg acct ln = .ok out) :
    out.1 ≠ [] ∧
    ∀ p ∈ out.1, p.currency_rate =
      some (round_rate6 (local_abs_of ln.amount / foreign_total_of ln.invoices)) := by
  unfold build_line at hok
  rw [htype] at hok
  by_cases hempty : ln.invoices.isEmpty
  · simp [hempty] at hok
  · by_cases hle : foreign_total_of ln.invoices ≤ 0
    · simp [hempty, hle] at hok
    · by_cases hmis : cfg.require_exact_totals ∧
          |round2 |round2 ln.amount| - foreign_total_of ln.invoices| > cfg.amount_tolerance
      · simp [hempty, hle, hmis] at hok
      · simp only [hempty, Bool.false_eq_true, if_false, hle, hmis, if_neg,
          lt_of_not_le hle, if_pos, not_false_eq_true] at hok
        cases hok
        constructor
        · intro hnil
          have hinv : ln.invoices = [] := List.map_eq_nil_iff.mp hnil
          rw [hinv] at hempty
          exact hempty rfl
        · intro p hp
          simp only [List.mem_map] at hp
          obtain ⟨i, hi, rfl⟩ := hp
          simp [local_abs_of]

theorem fx_rate_attached_check :
    c3_out.1 ≠ [] ∧
    ∀ p ∈ c3_out.1, p.currency_rate =
      some (round_rate6 (local_abs_of c3_line.amount / foreign_total_of c3_line.invoices)) :=
  fx_rate_attached default_config ("ACC") c3_line c3_out rfl
    (by norm_num [build_line, c3_line, c3_out, c3_payment, default_config, foreign_total_of,
      local_abs_of, round2, half_up, round_rate6, ref_norm, ref_payload, trim_str])

/-- Claim C5: a `non_invoice` line flagged as spend with no contact
reference fails with `MissingContact` naming its `bank_line_id`, and any
batch containing such a line validates to an error, so no payloads are
built for the batch. -/
theorem missing_contact_rejected (cfg : Config) (acct : String) (ln : Line)
    (htype : ln.type = .non_invoice)
    (hspend : (ln.non_invoice.getD empty_non_invoice).is_spend = true)
    (hnc : opt_blank (ln.non_invoice.getD empty_non_invoice).contact_id = true) :
    build_line cfg acct ln = .error (.missing_contact ln.bank_line_id) ∧
    ∀ pre post : List Line,
      ∃ e, validate_and_build cfg acct (pre ++ ln :: post) = .error e := by
  have hline : build_line cfg acct ln = .error (.missing_contact ln.bank_line_id) := by
    unfold build_line
    rw [htype]
    simp [hspend, hnc]
  refine ⟨hline, ?_⟩
  intro pre post
  induction pre with
  | nil =>
    exact ⟨.missing_contact ln.bank_line_id, by simp [validate_and_build, hline]⟩
  | cons p pre ih =>
    obtain ⟨e, he⟩ := ih
    cases hbp : build_line cfg acct p with
    | error e2 => exact ⟨e2, by simp [validate_and_build, hbp]⟩
    | ok out2 => exact ⟨e, by simp [validate_and_build, hbp, he]⟩

theorem missing_contact_rejected_check :
    build_line default_config ("ACC") c5_line = .error (.missing_contact c5_line.bank_line_id) ∧
    ∀ pre post : List Line,
      ∃ e, validate_and_build default_config ("ACC") (pre ++ c5_line :: post) = .error e :=
  missing_contact_rejected default_config ("ACC") c5_line rfl (by decide) (by decide)

theorem synth_amounts_spec (fp : String → Except PyErr ℚ) (dcol ccol : String)
    (dval cval : (String → Val) → ℚ) :
    ∀ rows : List (String → Val),
    (∀ row ∈ rows, norm_amount fp (row dcol) = .ok (some (dval row)) ∧
      norm_amount fp (row ccol) = .ok (some (cval row))) →
    synth_amounts fp (some dcol) (some ccol) rows =
      .ok (rows.map (fun row => cval row - dval row)) := by
  intro rows h
  induction rows with
  | nil => rfl
  | cons row rest ih =>
    obtain ⟨hd, hc⟩ := h row (List.mem_cons_self row rest)
    have hrest := ih (fun r hr => h r (List.mem_cons_of_mem _ hr))
    simp [synth_amounts, hd, hc, hrest]

theorem synth_amounts_credit_only (fp : String → Except PyErr ℚ) (ccol : String)
    (cval : (String → Val) → ℚ) :
    ∀ rows : List (String → Val),
    (∀ row ∈ rows, norm_amount fp (row ccol) = .ok (some (cval row))) →
    synth_amounts fp none (some ccol) rows = .ok (rows.map (fun row => cval row)) := by
  intro rows h
  induction rows with
  | nil => rfl
  | cons row rest ih =>
    have hc := h row (List.mem_cons_self row rest)
    have hrest := ih (fun r hr => h r (List.mem_cons_of_mem _ hr))
    simp [synth_amounts, hc, hrest]

theorem synth_amounts_debit_only (fp : String → Except PyErr ℚ) (dcol : String)
    (dval : (String → Val) → ℚ) :
    ∀ rows : List (String → Val),
    (∀ row ∈ rows, norm_amount fp (row dcol) = .ok (some (dval row))) →
    synth_amounts fp (some dcol) none rows = .ok (rows.map (fun row => -(dval row))) := by
  intro rows h
  induction rows with
  | nil => rfl
  | cons row rest ih =>
    have hd := h row (List.mem_cons_self row rest)
    have hrest := ih (fun r hr => h r (List.mem_cons_of_mem _ hr))
    simp [synth_amounts, hd, hrest]

/-- Claim C8: with no detectable amount column but a detected
debit/credit pair, the derived per-row amount is `credit − debit`; a
missing side of the pair acts as 0 (only credit found gives `credit`,
only debit found gives `−debit`). -/
theorem debit_credit_fallback (fp : String → Except PyErr ℚ) (cols : List String)
    (rows : List (String → Val)) :
    (∀ (dcol ccol : String) (dval cval : (String → Val) → ℚ),
      detect_amount_column cols = none →
      detect_debit_credit cols = (some dcol, some ccol) →
      (∀ row ∈ rows, norm_amount fp (row dcol) = .ok (some (dval row)) ∧
        norm_amount fp (row ccol) = .ok (some (cval row))) →
      amount_values fp cols rows =
        .ok (rows.map (fun row => some (cval row - dval row)))) ∧
    (∀ (ccol : String) (cval : (String → Val) → ℚ),
      detect_amount_column cols = none →
      detect_debit_credit cols = (none, some ccol) →
      (∀ row ∈ rows, norm_amount fp (row ccol) = .ok (some (cval row))) →
      amount_values fp cols rows = .ok (rows.map (fun row => some (cval row)))) ∧
    (∀ (dcol : String) (dval : (String → Val) → ℚ),
      detect_amount_column cols = none →
      detect_debit_credit cols = (some dcol, none) →
      (∀ row ∈ rows, norm_amount fp (row dcol) = .ok (some (dval row))) →
      amount_values fp cols rows = .ok (rows.map (fun row => some (-(dval row))))) := by
  refine ⟨?_, ?_, ?_⟩
  · intro dcol ccol dval cval hamt hdc hcells
    have hs := synth_amounts_spec fp dcol ccol dval cval rows hcells
    simp [amount_values, hamt, hdc, hs]
  · intro ccol cval hamt hdc hcells
    have hs := synth_amounts_credit_only fp ccol cval rows hcells
    simp [amount_values, hamt, hdc, hs]
  · intro dcol dval hamt hdc hcells
    have hs := synth_amounts_debit_only fp dcol dval rows hcells
    simp [amount_values, hamt, hdc, hs]

theorem debit_credit_fallback_check :
    amount_values c8_fp [("Withdrawal"), ("Deposit")] [c8_row1, c8_row2] =
      .ok ([c8_row1, c8_row2].map (fun row => some (c8_cval row - c8_dval row))) :=
  (debit_credit_fallback c8_fp [("Withdrawal"), ("Deposit")] [c8_row1, c8_row2]).1
    ("Withdrawal") ("Deposit") c8_dval c8_cval
    (by decide) (by decide)
    (by
      intro row hrow
      simp only [List.mem_cons, List.not_mem_nil, or_false] at hrow
      rcases hrow with rfl | rfl
      · exact ⟨rfl, rfl⟩
      · exact ⟨rfl, rfl⟩)

theorem isEmpty_false_of_ne {α : Type} {l : List α} (h : l ≠ []) : l.isEmpty = false := by
  cases l with
  | nil => exact absurd rfl h
  | cons a l => rfl

theorem eq_nil_of_isEmpty {α : Type} {l : List α} (h : l.isEmpty = true) : l = [] := by
  cases l with
  | nil => rfl
  | cons a l => cases h

/-- Claim C6: audit records (one per preview item) exist only on a fully
successful run — a successful result implies every applicable ledger
post returned 2xx and carries one audit record per preview item — and a
non-2xx response from an applicable post makes the run fail with
`LedgerRejected` carrying that response's status and body text (the
audit list lives in the success result, so a failed run writes none). -/
theorem audit_only_after_posts (sha : String → String) (accounts : List Account)
    (req : BatchRequest) (ctx : PostContext) :
    (∀ (res : PostOutcome) (calls : List LedgerCall),
      payments_post sha accounts req ctx = (.ok res, calls) →
      ∃ ac built,
        pick_bank_account_id accounts req.bank_account_hint = .ok ac ∧
        xd_validate_and_build req.config ac.1 req.lines = .ok built ∧
        res.audits.length = built.preview.length ∧
        (built.payments ≠ [] → is2xx ctx.pay_resp.status = true) ∧
        (built.banktxns ≠ [] → is2xx ctx.bt_resp.status = true)) ∧
    (∀ (ac : String × Account) (built : Built),
      pick_bank_account_id accounts req.bank_account_hint = .ok ac →
      xd_validate_and_build req.config ac.1 req.lines = .ok built →
      (built.payments ≠ [] → is2xx ctx.pay_resp.status = false →
        (payments_post sha accounts req ctx).1 =
          .error (.ledger_rejected ctx.pay_resp.status ctx.pay_resp.text)) ∧
      ((built.payments = [] ∨ is2xx ctx.pay_resp.status = true) →
        built.banktxns ≠ [] → is2xx ctx.bt_resp.status = false →
        (payments_post sha accounts req ctx).1 =
          .error (.ledger_rejected ctx.bt_resp.status ctx.bt_resp.text))) := by
  constructor
  · intro res calls h
    cases hpick : pick_bank_account_id accounts req.bank_account_hint with
    | error e => simp [payments_post, hpick] at h
    | ok ac =>
      cases hval : xd_validate_and_build req.config ac.1 req.lines with
      | error e => simp [payments_post, hpick, hval] at h
      | ok built =>
        refine ⟨ac, built, rfl, hval, ?_⟩
        by_cases hc1 : (!built.payments.isEmpty && !(is2xx ctx.pay_resp.status)) = true
        · simp [payments_post, hpick, hval, hc1] at h
        · by_cases hc2 : (!built.banktxns.isEmpty && !(is2xx ctx.bt_resp.status)) = true
          · simp [payments_post, hpick, hval, hc1, hc2] at h
          · simp only [payments_post, hpick, hval, hc1, hc2, Bool.false_eq_true, if_false,
              Prod.mk.injEq, Except.ok.injEq] at h
            obtain ⟨hres, hcalls⟩ := h
            subst hres
            refine ⟨by simp [List.length_map], ?_, ?_⟩
            · intro hne
              by_cases hps : is2xx ctx.pay_resp.status = true
              · exact hps
              · exfalso
                apply hc1
                rw [isEmpty_false_of_ne hne]
                simp [Bool.not_eq_true] at hps
                rw [hps]
                rfl
            · intro hne
              by_cases hbs : is2xx ctx.bt_resp.status = true
              · exact hbs
              · exfalso
                apply hc2
                rw [isEmpty_false_of_ne hne]
                simp [Bool.not_eq_true] at hbs
                rw [hbs]
                rfl
  · intro ac built hpick hval
    constructor
    · intro hne hfail
      have hc1 : (!built.payments.isEmpty && !(is2xx ctx.pay_resp.status)) = true := by
        rw [isEmpty_false_of_ne hne, hfail]
        rfl
      simp [payments_post, hpick, hval, hc1]
    · intro hor hne hfail
      have hc1 : (!built.payments.isEmpty && !(is2xx ctx.pay_resp.status)) = false := by
        rcases hor with h | h
        · simp [h]
        · simp [h]
      have hc2 : (!built.banktxns.isEmpty && !(is2xx ctx.bt_resp.status)) = true := by
        rw [isEmpty_false_of_ne hne, hfail]
        rfl
      simp [payments_post, hpick, hval, hc1, hc2]

theorem audit_only_after_posts_check :
    (payments_post sha_const [c67_account] c67_req c6_ctx).1 =
      .error (.ledger_rejected 500 ("boom")) :=
  (((audit_only_after_posts sha_const [c67_account] c67_req c6_ctx).2
    (("A1"), c67_account) c67_built
    (by rfl)
    (by norm_num [xd_validate_and_build, xd_build_line, c67_req, c67_line, c67_built,
      c67_payment, default_config, foreign_total_of, round2, half_up, ref_norm,
      ref_payload, trim_str])).1)
    (by simp [c67_built])
    (by rfl)

theorem mem_two_calls {c : LedgerCall} {pk bk : String} {pe be : Bool}
    (hc : c ∈ (if pe = true then ([] : List LedgerCall)
        else [{ endpoint := ("payments"), idem_key := pk }]) ++
      (if be = true then ([] : List LedgerCall)
        else [{ endpoint := ("banktxns"), idem_key := bk }])) :
    (c.endpoint = ("payments") ∧ c.idem_key = pk) ∨
    (c.endpoint = ("banktxns") ∧ c.idem_key = bk) := by
  rcases List.mem_append.mp hc with h | h
  · cases pe
    · simp only [Bool.false_eq_true, if_false, List.mem_singleton] at h
      subst h
      exact Or.inl ⟨rfl, rfl⟩
    · simp at h
  · cases be
    · simp only [Bool.false_eq_true, if_false, List.mem_singleton] at h
      subst h
      exact Or.inr ⟨rfl, rfl⟩
    · simp at h

theorem calls_keys (sha : String → String) (accounts : List Account)
    (req : BatchRequest) (ctx : PostContext) :
    ∀ c ∈ (payments_post sha accounts req ctx).2,
    ∃ ac, pick_bank_account_id accounts req.bank_account_hint = .ok ac ∧
      ((c.endpoint = ("payments") ∧
        c.idem_key = idem_key sha [idem_seed sha req ac.1 ac.2, ("payments")]) ∨
       (c.endpoint = ("banktxns") ∧
        c.idem_key = idem_key sha [idem_seed sha req ac.1 ac.2, ("banktxns")])) := by
  intro c hc
  cases hpick : pick_bank_account_id accounts req.bank_account_hint with
  | error e => simp [payments_post, hpick] at hc
  | ok ac =>
    cases hval : xd_validate_and_build req.config ac.1 req.lines with
    | error e => simp [payments_post, hpick, hval] at hc
    | ok built =>
      refine ⟨ac, rfl, ?_⟩
      by_cases hc1 : (!built.payments.isEmpty && !(is2xx ctx.pay_resp.status)) = true
      · simp only [payments_post, hpick, hval, hc1, if_true] at hc
        by_cases hpe : built.payments.isEmpty
        · simp [hpe] at hc
        · simp only [hpe, Bool.false_eq_true, if_false, List.mem_singleton] at hc
          subst hc
          exact Or.inl ⟨rfl, rfl⟩
      · by_cases hc2 : (!built.banktxns.isEmpty && !(is2xx ctx.bt_resp.status)) = true
        · simp only [payments_post, hpick, hval, hc1, hc2, Bool.false_eq_true, if_false,
            if_true] at hc
          exact mem_two_calls hc
        · simp only [payments_post, hpick, hval, hc1, hc2, Bool.false_eq_true, if_false] at hc
          exact mem_two_calls hc

/-- Claim C7: the idempotency keys are a deterministic function of the
batch request and the resolved account.  Any two runs over the same
accounts directory and the same request — whatever the ledger responses
and timestamps — tag their ledger calls of the same kind (payments, or
bank transactions) with the same idempotency key. -/
theorem idem_keys_deterministic (sha : String → String) (accounts : List Account)
    (req : BatchRequest) (ctx1 ctx2 : PostContext) (c1 c2 : LedgerCall)
    (h1 : c1 ∈ (payments_post sha accounts req ctx1).2)
    (h2 : c2 ∈ (payments_post sha accounts req ctx2).2)
    (he : c1.endpoint = c2.endpoint) :
    c1.idem_key = c2.idem_key := by
  obtain ⟨ac1, hp1, hk1⟩ := calls_keys sha accounts req ctx1 c1 h1
  obtain ⟨ac2, hp2, hk2⟩ := calls_keys sha accounts req ctx2 c2 h2
  rw [hp1] at hp2
  have hac : ac1 = ac2 := Except.ok.inj hp2
  subst hac
  rcases hk1 with ⟨he1, hkey1⟩ | ⟨he1, hkey1⟩ <;>
    rcases hk2 with ⟨he2, hkey2⟩ | ⟨he2, hkey2⟩
  · rw [hkey1, hkey2]
  · rw [he1, he2] at he
    exact absurd he (by decide)
  · rw [he1, he2] at he
    exact absurd he (by decide)
  · rw [hkey1, hkey2]

theorem idem_keys_deterministic_check :
    ({ endpoint := ("payments"), idem_key := ("K") } : LedgerCall).idem_key =
      ({ endpoint := ("payments"), idem_key := ("K") } : LedgerCall).idem_key :=
  idem_keys_deterministic sha_const [c67_account] c67_req c7_ctx1 c7_ctx2
    { endpoint := ("payments"), idem_key := ("K") }
    { endpoint := ("payments"), idem_key := ("K") }
    (by norm_num [payments_post, pick_bank_account_id, xd_validate_and_build, xd_build_line,
      c67_req, c67_line, c67_account, c7_ctx1, default_config, foreign_total_of, round2,
      half_up, ref_norm, ref_payload, trim_str, opt_blank, idem_key, idem_seed, sha_const,
      is2xx])
    (by norm_num [payments_post, pick_bank_account_id, xd_validate_and_build, xd_build_line,
      c67_req, c67_line, c67_account, c7_ctx2, default_config, foreign_total_of, round2,
      half_up, ref_norm, ref_payload, trim_str, opt_blank, idem_key, idem_seed, sha_const,
      is2xx])
    rfl

end BankRecon
